import Mathlib

/-!
Verification of the Mixamo animation-acquisition pipeline
(`Server/src/mixamo_mcp/client.py`, `Server/src/mixamo_mcp/keywords.py`,
`Server/src/mixamo_mcp/models.py`, `Server/src/services/mixamo_service.py`).

The Python code is shallowly embedded: JSON-like Python values become the
inductive `PyVal`; fallible Python code (attribute errors, `int()` coercion
failures, raised exceptions) becomes `Except String`; dataclasses become
Lean structures.  Each definition mirrors one Python function of the source.
-/

/-- A Python/JSON value as handled by the pipeline: `None`, booleans,
integers, strings, lists and (string-keyed, insertion-ordered) dicts. -/
inductive PyVal where
  | none : PyVal
  | bool : Bool → PyVal
  | int : Int → PyVal
  | str : String → PyVal
  | list : List PyVal → PyVal
  | dict : List (String × PyVal) → PyVal

/-- Python `v is None`. -/
def pvIsNone : PyVal → Bool
  | .none => true
  | _ => false

/-- Python `v == s` for a string literal `s`: true exactly when `v` is that
string (Python equality across types is `False` for the values in play). -/
def pvIsStr (v : PyVal) (s : String) : Bool :=
  match v with
  | .str t => t == s
  | _ => false

/-- Python truthiness (`bool(v)`): `None`, `False`, `0`, `""`, `[]` and
`{}` are falsy, everything else is truthy. -/
def pyTruthy : PyVal → Bool
  | .none => false
  | .bool b => b
  | .int n => !(n == 0)
  | .str s => !(s == "")
  | .list l => !l.isEmpty
  | .dict d => !d.isEmpty

mutual

/-- Python `repr` of a value (used by `str` on containers). -/
def pyRepr : PyVal → String
  | .none => "None"
  | .bool b => if b then "True" else "False"
  | .int n => toString n
  | .str s => "'" ++ s ++ "'"
  | .list l => "[" ++ pyReprList l ++ "]"
  | .dict d => "\x7b" ++ pyReprDict d ++ "\x7d"

/-- `repr` of the elements of a Python list, comma-separated. -/
def pyReprList : List PyVal → String
  | [] => ""
  | [v] => pyRepr v
  | v :: rest => pyRepr v ++ ", " ++ pyReprList rest

/-- `repr` of the entries of a Python dict, comma-separated. -/
def pyReprDict : List (String × PyVal) → String
  | [] => ""
  | [(k, v)] => "'" ++ k ++ "': " ++ pyRepr v
  | (k, v) :: rest => "'" ++ k ++ "': " ++ pyRepr v ++ ", " ++ pyReprDict rest

end

/-- Python `str(v)`: identity on strings, `repr`-like rendering otherwise. -/
def pyStr : PyVal → String
  | .str s => s
  | v => pyRepr v

/-- `v.get(key, default)` — succeeds only on dicts; on any other value
Python raises `AttributeError` (the receiver has no `get` method). -/
def pvGetD (v : PyVal) (key : String) (default : PyVal) : Except String PyVal :=
  match v with
  | .dict entries => .ok ((List.lookup key entries).getD default)
  | _ => .error "AttributeError: object has no attribute get"

/-- Python dict assignment `d[key] = v`: overwrite in place (keeping the
entry's position) when the key exists, append otherwise. -/
def assocSet : List (String × PyVal) → String → PyVal → List (String × PyVal)
  | [], k, v => [(k, v)]
  | (k', v') :: rest, k, v =>
      if k' == k then (k, v) :: rest else (k', v') :: assocSet rest k v

/-- Lookup in a dict value; `Option.none` when the value is not a dict or
the key is absent. -/
def pvalGet (v : PyVal) (key : String) : Option PyVal :=
  match v with
  | .dict entries => List.lookup key entries
  | _ => Option.none

/-- Python `int(v)` on the values the pipeline feeds it: ints pass through,
booleans become 0/1, strings are parsed as optionally signed decimal
numerals (surrounding whitespace allowed); anything else raises. -/
def pyToInt (v : PyVal) : Except String Int :=
  match v with
  | .int n => .ok n
  | .bool b => .ok (if b then 1 else 0)
  | .str s => pyParseInt s
  | _ => .error "TypeError: int() argument"
where
  /-- Parse an optionally signed decimal numeral, Python-style. -/
  pyParseInt (s : String) : Except String Int :=
    let chars := (s.data.dropWhile (fun c => c == ' ')).reverse.dropWhile
      (fun c => c == ' ') |>.reverse
    let (neg, digits) :=
      match chars with
      | '-' :: rest => (true, rest)
      | '+' :: rest => (false, rest)
      | rest => (false, rest)
    if digits.isEmpty || !(digits.all Char.isDigit) then
      .error ("ValueError: invalid literal for int(): '" ++ s ++ "'")
    else
      let n : Nat := digits.foldl (fun acc c => acc * 10 + (c.toNat - '0'.toNat)) 0
      .ok (if neg then -(n : Int) else (n : Int))

/-- Whitespace characters stripped by Python `str.strip()` (ASCII range). -/
def isPySpace (c : Char) : Bool :=
  c == ' ' || c == '\t' || c == '\n' || c == '\r' || c == '\x0b' || c == '\x0c'

/-- Python `s.strip()`: remove leading and trailing whitespace. -/
def pyStrip (s : String) : String :=
  String.mk (((s.data.dropWhile isPySpace).reverse.dropWhile isPySpace).reverse)

/-- Python `s.lower()` (ASCII case folding, all the tables use ASCII). -/
def pyLower (s : String) : String :=
  String.mk (s.data.map Char.toLower)

/-- Does `needle` occur at the start of `hay`? -/
def charsStartWith : List Char → List Char → Bool
  | [], _ => true
  | _ :: _, [] => false
  | c :: cs, d :: ds => c == d && charsStartWith cs ds

/-- Does `needle` occur anywhere inside `hay`? -/
def charsContain (needle : List Char) : List Char → Bool
  | [] => charsStartWith needle []
  | hay@(_ :: rest) => charsStartWith needle hay || charsContain needle rest

/-- Python substring test `needle in hay`. -/
def pyIn (needle hay : String) : Bool :=
  charsContain needle.data hay.data

/-- Python `s.replace(" ", "_")`. -/
def pyReplaceSpace (s : String) : String :=
  String.mk (s.data.map (fun c => if c == ' ' then '_' else c))

/-- Python `s.endswith(suffix)`. -/
def pyEndsWith (s suffix : String) : Bool :=
  charsStartWith suffix.data.reverse s.data.reverse

example : pyIn "walk" "strut walk" = true := rfl
example : pyIn "walk" "jog" = false := rfl
example : pyStrip "  run " = "run" := rfl
example : pyLower "RuN" = "run" := rfl
example : pyEndsWith "Run_Fast_.fbx" ".fbx" = true := rfl

example : pyToInt (.str "40") = .ok 40 := rfl
example : pyToInt (.int 5) = .ok 5 := rfl
example : pyTruthy (.dict [("a", .int 0)]) = true := rfl
example : pvGetD .none "details" (.dict []) =
    .error "AttributeError: object has no attribute get" := rfl

/-!  ## Keyword expansion

`expand_search_keywords` and `ANIMATION_KEYWORD_MAP` from
`Server/src/services/mixamo_service.py`, and `get_search_queries` with
`KEYWORD_MAPPINGS` from `Server/src/mixamo_mcp/keywords.py`.
-/

/-- `ANIMATION_KEYWORD_MAP` of `services/mixamo_service.py`, in source
(insertion) order. -/
def animationKeywordMap : List (String × List String) := [
  ("run", ["running", "run", "jog", "sprint"]),
  ("walk", ["walking", "walk", "stroll"]),
  ("jump", ["jump", "jumping", "leap", "hop"]),
  ("crouch", ["crouch", "crouching", "sneaking", "sneak", "stealth"]),
  ("crawl", ["crawl", "crawling", "prone"]),
  ("idle", ["idle", "breathing", "standing", "wait"]),
  ("sit", ["sitting", "sit", "seated"]),
  ("lay", ["laying", "lay", "lying", "prone"]),
  ("attack", ["punch", "kick", "slash", "strike", "attack", "hit"]),
  ("punch", ["punch", "jab", "hook", "uppercut"]),
  ("kick", ["kick", "roundhouse", "front kick"]),
  ("sword", ["sword", "slash", "sword attack", "melee"]),
  ("shoot", ["shoot", "shooting", "aim", "fire", "gun"]),
  ("block", ["block", "blocking", "defend", "guard"]),
  ("dodge", ["dodge", "evade", "roll", "sidestep"]),
  ("pick", ["pick up", "pickup", "grab", "take"]),
  ("throw", ["throw", "throwing", "toss"]),
  ("push", ["push", "pushing", "shove"]),
  ("pull", ["pull", "pulling", "drag"]),
  ("wave", ["wave", "waving", "greeting", "hello"]),
  ("dance", ["dance", "dancing", "groove"]),
  ("die", ["death", "die", "dying", "fall", "collapse"]),
  ("hurt", ["hurt", "pain", "hit reaction", "damage"]),
  ("celebrate", ["celebrate", "victory", "cheer", "triumph"]),
  ("taunt", ["taunt", "mock", "provoke"]),
  ("climb", ["climb", "climbing", "scale", "ascend"]),
  ("hang", ["hang", "hanging", "ledge"]),
  ("swim", ["swim", "swimming", "float"]),
  ("fly", ["fly", "flying", "hover", "float"])]

/-- One pass of the `for key, variations in ANIMATION_KEYWORD_MAP.items()`
loop of `expand_search_keywords`: the whole synonym list is appended when
the key matches the query by substring (either direction), and appended
again when any single variation matches (the inner loop `break`s after the
first extension). -/
def expandLoop (ql : String) : List (String × List String) → List String
  | [] => []
  | (key, variations) :: rest =>
      (if pyIn key ql || pyIn ql key then variations else [])
        ++ (if variations.any (fun var => pyIn var ql || pyIn ql var) then
              variations else [])
        ++ expandLoop ql rest

/-- Order-preserving deduplication, as the Python seen-set comprehension
`[x for x in expanded if not (x in seen or seen.add(x))]`: the first
occurrence of each element is kept. -/
def dedupFirstAux (seen : List String) : List String → List String
  | [] => []
  | x :: xs =>
      if x ∈ seen then dedupFirstAux seen xs
      else x :: dedupFirstAux (x :: seen) xs

/-- `expand_search_keywords(query)` of `services/mixamo_service.py`. -/
def expandSearchKeywords (query : String) : List String :=
  let queryLower := pyLower (pyStrip query)
  dedupFirstAux [] (queryLower :: expandLoop queryLower animationKeywordMap)

example : expandSearchKeywords "xyz-unknown" = ["xyz-unknown"] := rfl
example :
    expandSearchKeywords "run" = ["run", "running", "jog", "sprint"] := rfl

/-- `KEYWORD_MAPPINGS` of `mixamo_mcp/keywords.py`, in source (insertion)
order. -/
def keywordMappings : List (String × List String) := [
  ("idle", ["idle", "breathing idle", "standing idle", "happy idle"]),
  ("walk", ["walking", "walk", "strut walk", "sneaking"]),
  ("run", ["running", "run", "jog", "sprint", "fast run"]),
  ("jump", ["jump", "jumping", "hop", "leap", "running jump"]),
  ("crouch", ["crouch", "crouching", "sneaking", "stealth"]),
  ("crawl", ["crawl", "crawling", "prone"]),
  ("climb", ["climb", "climbing", "ladder climb"]),
  ("swim", ["swim", "swimming", "treading water"]),
  ("fall", ["falling", "fall", "falling idle"]),
  ("land", ["landing", "land", "hard landing"]),
  ("slide", ["slide", "sliding", "baseball slide"]),
  ("roll", ["roll", "rolling", "combat roll", "dive roll"]),
  ("strafe", ["strafe", "strafing", "side step"]),
  ("turn", ["turn", "turning", "turn around", "180 turn"]),
  ("attack", ["attack", "slash", "strike", "hit"]),
  ("punch", ["punch", "punching", "jab", "hook", "uppercut", "cross punch"]),
  ("kick", ["kick", "kicking", "roundhouse", "front kick", "side kick"]),
  ("sword", ["sword", "sword slash", "sword attack", "great sword"]),
  ("block", ["block", "blocking", "shield block", "parry"]),
  ("dodge", ["dodge", "dodging", "evade", "sidestep"]),
  ("shoot", ["shoot", "shooting", "rifle", "pistol", "aim"]),
  ("reload", ["reload", "reloading", "magazine"]),
  ("throw", ["throw", "throwing", "grenade throw"]),
  ("hit", ["hit reaction", "take damage", "get hit", "impact"]),
  ("death", ["death", "dying", "die", "killed"]),
  ("knockdown", ["knockdown", "knocked down", "fall back"]),
  ("wave", ["wave", "waving", "greeting", "hello"]),
  ("bow", ["bow", "bowing", "respect"]),
  ("clap", ["clap", "clapping", "applause"]),
  ("cheer", ["cheer", "cheering", "celebration", "victory"]),
  ("laugh", ["laugh", "laughing", "lol"]),
  ("cry", ["cry", "crying", "sad", "sobbing"]),
  ("angry", ["angry", "rage", "frustrated"]),
  ("shrug", ["shrug", "confused", "I don't know"]),
  ("point", ["point", "pointing", "gesture"]),
  ("talk", ["talk", "talking", "conversation", "arguing"]),
  ("sit", ["sit", "sitting", "sit down", "seated"]),
  ("sleep", ["sleep", "sleeping", "lay down"]),
  ("pray", ["pray", "praying", "kneel"]),
  ("salute", ["salute", "military salute"]),
  ("taunt", ["taunt", "taunting", "provoke"]),
  ("think", ["think", "thinking", "pondering"]),
  ("nod", ["nod", "nodding", "yes"]),
  ("shake head", ["shake head", "no", "disagree"]),
  ("dance", ["dance", "dancing", "groove"]),
  ("hip hop", ["hip hop", "hip hop dance", "breakdance"]),
  ("salsa", ["salsa", "salsa dancing", "latin dance"]),
  ("ballet", ["ballet", "pirouette", "ballet dance"]),
  ("robot", ["robot", "robot dance", "robotic"]),
  ("macarena", ["macarena"]),
  ("twerk", ["twerk", "twerking"]),
  ("moonwalk", ["moonwalk"]),
  ("breakdance", ["breakdance", "breaking", "b-boy"]),
  ("shuffle", ["shuffle", "shuffling"]),
  ("baseball", ["baseball", "batting", "pitching", "catching"]),
  ("basketball", ["basketball", "dribble", "shoot ball", "dunk"]),
  ("soccer", ["soccer", "football", "kick ball", "header"]),
  ("golf", ["golf", "golf swing", "putting"]),
  ("tennis", ["tennis", "forehand", "backhand", "serve"]),
  ("boxing", ["boxing", "boxer", "fighting stance"]),
  ("martial arts", ["martial arts", "karate", "kung fu", "taekwondo"]),
  ("pickup", ["pickup", "pick up", "grab", "collect"]),
  ("use", ["use", "interact", "activate", "press button"]),
  ("push", ["push", "pushing", "shove"]),
  ("pull", ["pull", "pulling", "drag"]),
  ("carry", ["carry", "carrying", "hold"]),
  ("drink", ["drink", "drinking"]),
  ("eat", ["eat", "eating"]),
  ("phone", ["phone", "cellphone", "texting"]),
  ("type", ["type", "typing", "keyboard"]),
  ("look", ["look", "looking", "look around"])]

/-- `get_search_queries(keyword)` of `mixamo_mcp/keywords.py`: exact key
match first, then the first substring match (either direction) in table
order, otherwise `[keyword]` (the original, unlowered keyword). -/
def getSearchQueries (keyword : String) : List String :=
  let keywordLower := pyLower (pyStrip keyword)
  match List.lookup keywordLower keywordMappings with
  | some queries => queries
  | Option.none =>
    match keywordMappings.find?
        (fun kv => pyIn keywordLower kv.1 || pyIn kv.1 keywordLower) with
    | some kv => kv.2
    | Option.none => [keyword]

example :
    getSearchQueries "walk" = ["walking", "walk", "strut walk", "sneaking"] :=
  rfl
example : getSearchQueries "xyzzy" = ["xyzzy"] := rfl

/-!  ## Export payload builders

`MixamoClient._build_gms_hash` from `mixamo_mcp/client.py` and
`MixamoService._build_export_payload` from `services/mixamo_service.py`.
-/

/-- The fallback `gms_hash` entry returned by `_build_gms_hash` when the
animation details carry no `gms_hash` (client.py lines 521-532). -/
def defaultGmsHash : PyVal :=
  .dict [("model-id", .int 0), ("mirror", .bool false),
         ("trim", .list [.int 0, .int 100]), ("overdrive", .int 0),
         ("params", .str "0"), ("arm-space", .int 0),
         ("inplace", .bool false)]

/-- One element of the client's params conversion loop: `str(p[1])` when
`p` is a list of length > 1, otherwise `str(p) if p else "0"`. -/
def clientParamValue (p : PyVal) : String :=
  match p with
  | .list q =>
      if 1 < q.length then pyStr (q.getD 1 .none)
      else if pyTruthy p then pyStr p else "0"
  | _ => if pyTruthy p then pyStr p else "0"

/-- `MixamoClient._build_gms_hash(animation_details)` (client.py lines
508-555): substitute `{}` for `None`, fall back to `defaultGmsHash` when no
`gms_hash` is present, otherwise copy the original `gms_hash` and only
replace its `params` entry by the comma-joined value string. -/
def clientBuildGmsHash (animationDetails : PyVal) : Except String (List PyVal) :=
  let details := if pvIsNone animationDetails then .dict [] else animationDetails
  match pvGetD details "details" (.dict []) with
  | .error e => .error e
  | .ok d =>
    match pvGetD d "gms_hash" (.dict []) with
    | .error e => .error e
    | .ok gmsHash =>
      if !(pyTruthy gmsHash) then .ok [defaultGmsHash]
      else
        match gmsHash with
        | .dict entries =>
          let params := (List.lookup "params" entries).getD (.list [])
          let paramsString :=
            match params with
            | .list ps =>
                let paramValues := ps.map clientParamValue
                if paramValues.isEmpty then "0"
                else String.intercalate "," paramValues
            | _ => if pyTruthy params then pyStr params else "0"
          .ok [.dict (assocSet entries "params" (.str paramsString))]
        | _ => .error "TypeError: dict() argument must be a mapping"

example : clientBuildGmsHash .none = .ok [defaultGmsHash] := rfl
example :
    clientBuildGmsHash
      (.dict [("details", .dict [("gms_hash",
        .dict [("params", .list [.list [.str "a", .int 1],
                                  .list [.str "b", .int 2]])])])]) =
    .ok [.dict [("params", .str "1,2")]] := rfl

/-- The params conversion of `MixamoService._build_export_payload`
(mixamo_service.py lines 370-378): `str(p[1]) if isinstance(p, list) else
str(p)` — indexing `p[1]` raises on lists shorter than two — comma-joined,
`"0"` when the list is empty, `str(params)` when not a list. -/
def serviceParamsString (gmsHash : List (String × PyVal)) : Except String String :=
  let params := (List.lookup "params" gmsHash).getD (.list [])
  match params with
  | .list ps =>
    match ps.mapM (fun p =>
        match p with
        | .list q =>
            match q with
            | _ :: v :: _ => Except.ok (pyStr v)
            | _ => Except.error "IndexError: list index out of range"
        | _ => Except.ok (pyStr p)) with
    | .error e => .error e
    | .ok paramValues =>
        .ok (if paramValues.isEmpty then "0"
             else String.intercalate "," paramValues)
  | _ => .ok (pyStr params)

/-- The trim normalization of `MixamoService._build_export_payload`
(mixamo_service.py lines 380-385): default `[0, 100]` when absent, coerce
both ends with `int()` when a list of length at least two, else `[0, 100]`. -/
def serviceTrim (gmsHash : List (String × PyVal)) : Except String PyVal :=
  let trim := (List.lookup "trim" gmsHash).getD (.list [.int 0, .int 100])
  match trim with
  | .list ts =>
    if 2 ≤ ts.length then
      match pyToInt (ts.getD 0 .none) with
      | .error e => .error e
      | .ok a =>
        match pyToInt (ts.getD 1 .none) with
        | .error e => .error e
        | .ok b => .ok (.list [.int a, .int b])
    else .ok (.list [.int 0, .int 100])
  | _ => .ok (.list [.int 0, .int 100])

/-- The `processed_gms_hash` dict built by
`MixamoService._build_export_payload` (mixamo_service.py lines 387-395):
pass-through fields with defaults, normalized trim, `overdrive` fixed at 0
and the flattened params string. -/
def serviceProcessGms (gmsHash : List (String × PyVal)) : Except String PyVal :=
  match serviceParamsString gmsHash with
  | .error e => .error e
  | .ok paramsString =>
    match serviceTrim gmsHash with
    | .error e => .error e
    | .ok trim =>
      .ok (.dict [
        ("model-id", (List.lookup "model-id" gmsHash).getD (.int 0)),
        ("mirror", (List.lookup "mirror" gmsHash).getD (.bool false)),
        ("trim", trim),
        ("overdrive", .int 0),
        ("params", .str paramsString),
        ("arm-space", (List.lookup "arm-space" gmsHash).getD (.int 0)),
        ("inplace", (List.lookup "inplace" gmsHash).getD (.bool false))])

/-- The configuration fields of `MixamoConfig` (mixamo_service.py) used by
the export payload's `preferences`. -/
structure ServiceConfig where
  exportFormat : String := "fbx7_2019"
  fps : Int := 30
  includeSkin : Bool := false
  reduceKeyframes : Int := 0

/-- `MixamoService._build_export_payload(character_id, animation_details,
product_name)` (mixamo_service.py lines 363-408).  Note the source performs
`animation_details.get(...)` without a `None` guard, so a null metadata
object raises `AttributeError`. -/
def serviceBuildExportPayload (cfg : ServiceConfig) (characterId : String)
    (animationDetails : PyVal) (productName : String) : Except String PyVal :=
  match pvGetD animationDetails "details" (.dict []) with
  | .error e => .error e
  | .ok d =>
    match pvGetD d "gms_hash" (.dict []) with
    | .error e => .error e
    | .ok gmsHashVal =>
      match gmsHashVal with
      | .dict gmsHash =>
        match serviceProcessGms gmsHash with
        | .error e => .error e
        | .ok processed =>
          match pvGetD animationDetails "type" (.str "Motion") with
          | .error e => .error e
          | .ok ty =>
            .ok (.dict [
              ("character_id", .str characterId),
              ("product_name", .str productName),
              ("type", ty),
              ("preferences", .dict [
                ("format", .str cfg.exportFormat),
                ("skin", .str (pyLower (pyStr (.bool cfg.includeSkin)))),
                ("fps", .str (pyStr (.int cfg.fps))),
                ("reducekf", .str (pyStr (.int cfg.reduceKeyframes)))]),
              ("gms_hash", .list [processed])])
      | _ => .error "AttributeError: object has no attribute get"

example :
    serviceProcessGms [("trim", .list [.int 5, .str "40"])] =
    .ok (.dict [("model-id", .int 0), ("mirror", .bool false),
                ("trim", .list [.int 5, .int 40]), ("overdrive", .int 0),
                ("params", .str "0"), ("arm-space", .int 0),
                ("inplace", .bool false)]) := rfl
example :
    serviceBuildExportPayload {} "char" .none "Jump" =
    .error "AttributeError: object has no attribute get" := rfl

/-!  ## Filenames (Retrieval & Persistence)

The filename sanitization of `MixamoClient.download` (client.py lines
704-711) and of `MixamoService.download_animation` (mixamo_service.py
lines 526-529).
-/

/-- The shared character sanitization: `c if c.isalnum() or c in "._- "
else "_"` applied to each character. -/
def sanitizeChars (s : String) : String :=
  String.mk (s.data.map (fun c =>
    if c.isAlphanum || c == '.' || c == '_' || c == '-' || c == ' ' then c
    else '_'))

/-- The persisted filename of `MixamoClient.download` (client.py lines
704-711): start from the caller-supplied `file_name` when truthy, else the
animation name; sanitize characters; replace spaces with `_`; append
`".fbx"` only when not already a suffix. -/
def clientSafeName (fileName : Option String) (animationName : String) : String :=
  let base :=
    match fileName with
    | some s => if s == "" then animationName else s
    | Option.none => animationName
  let sanitized := pyReplaceSpace (sanitizeChars base)
  if pyEndsWith sanitized ".fbx" then sanitized else sanitized ++ ".fbx"

/-- The persisted filename of `MixamoService.download_animation`
(mixamo_service.py lines 526-529): sanitize the characters of the job's
animation name (spaces are kept) and append `".fbx"` unconditionally. -/
def serviceFileName (animationName : String) : String :=
  sanitizeChars animationName ++ ".fbx"

example : clientSafeName (some "Run Fast!.fbx") "x" = "Run_Fast_.fbx" := rfl
example : serviceFileName "Run Fast!.fbx" = "Run Fast_.fbx.fbx" := rfl

/-!  ## Jobs, results, polling and retrieval -/

/-- The dataclass `DownloadJob` of `services/mixamo_service.py`. -/
structure DownloadJob where
  characterId : String
  animationName : String
  status : String := "pending"
  downloadUrl : Option String := Option.none
  errorMessage : Option String := Option.none
deriving Repr, DecidableEq

/-- The dataclass `DownloadResult` of `mixamo_mcp/models.py`. -/
structure DownloadResult where
  success : Bool
  animationName : String
  filePath : String := ""
  error : String := ""
deriving Repr, DecidableEq

/-- The dataclass `BatchDownloadResult` of `mixamo_mcp/models.py`. -/
structure BatchDownloadResult where
  total : Nat
  successful : Nat
  failed : Nat
  results : List DownloadResult
deriving Repr, DecidableEq

/-- Python truthiness of an `Optional[str]` value: `None` and `""` are
falsy. -/
def optStrTruthy : Option String → Bool
  | Option.none => false
  | some s => !(s == "")

/-- How an f-string renders an `Optional[str]`: `None` for the absent
case, the bare string otherwise. -/
def fmtOptStr : Option String → String
  | Option.none => "None"
  | some s => s

/-- `MixamoService.download_animation(job, ...)` up to the file request
(mixamo_service.py lines 516-534): the guard refuses (raises
`DownloadError`, the `.error` case) unless `job.status == "completed"` and
`job.download_url` is truthy; in the `.ok` case the returned string is the
URL the retrieval `GET` is issued for — so an `.error` result means no
retrieval request was made. -/
def serviceDownloadAnimation (job : DownloadJob) : Except String String :=
  if !(job.status == "completed") || !(optStrTruthy job.downloadUrl) then
    .error ("DownloadError: Cannot download: job status is " ++ job.status
      ++ ", error: " ++ fmtOptStr job.errorMessage)
  else
    .ok (job.downloadUrl.getD "")

/-- A terminal-or-not classification of one monitor poll response, read off
`MixamoService._monitor_export`: the response is non-terminal when it is a
successful request whose payload is a dict whose `status` (default `""`)
is neither `"completed"` nor `"failed"` — the loop then just polls again. -/
def monitorNonTerminal (r : Except String PyVal) : Bool :=
  match r with
  | .ok (.dict entries) =>
      let sv := (List.lookup "status" entries).getD (.str "")
      !(pvIsStr sv "completed") && !(pvIsStr sv "failed")
  | _ => false

/-- `MixamoService._monitor_export(character_id, job, max_attempts, ...)`
(mixamo_service.py lines 449-498).  `resp n` is the result of the `n`-th
`GET /characters/{id}/monitor` request (`.error` = a raised `MixamoError`,
which the loop catches and records as failure).  The outer `Except` is an
exception escaping the loop (a non-dict response payload has no `.get`).
Exhausting `max_attempts` sets `status = "failed"` and the message
`"Export timed out"`. -/
def monitorExport (resp : Nat → Except String PyVal) :
    Nat → Nat → DownloadJob → Except String DownloadJob
  | 0, _, job =>
      .ok { job with status := "failed",
                     errorMessage := some "Export timed out" }
  | fuel + 1, i, job =>
    match resp i with
    | .error e =>
        .ok { job with status := "failed", errorMessage := some e }
    | .ok data =>
      match pvGetD data "status" (.str "") with
      | .error e => .error e
      | .ok sv =>
        if pvIsStr sv "completed" then
          match pvGetD data "job_result" .none with
          | .error e => .error e
          | .ok jr =>
              .ok { job with status := "completed",
                             downloadUrl := match jr with
                               | .str s => some s
                               | _ => Option.none }
        else if pvIsStr sv "failed" then
          match pvGetD data "message" (.str "Export failed") with
          | .error e => .error e
          | .ok m =>
              .ok { job with status := "failed",
                             errorMessage := some (pyStr m) }
        else
          monitorExport resp fuel (i + 1) job

/-- The `for keyword in keywords:` loop of `MixamoClient.batch_download`
(client.py lines 747-759), with the per-keyword `MixamoClient.download`
call abstracted as `download(name, file_name) : Except String
DownloadResult` — `.error` is an exception escaping `download` (such as
the `TypeError` raised by `search`'s `SearchResult(..., error=...)`
constructions, which run before `download`'s `try` block).  The loop has
no handler, so an escaping exception aborts the whole batch; otherwise
each result is appended in order. -/
def batchDownloadLoop (download : String → String → Except String DownloadResult)
    (characterName : String) : List String → Except String (List DownloadResult)
  | [] => .ok []
  | keyword :: rest =>
    match download (pyStrip keyword)
        (characterName ++ "_" ++ pyReplaceSpace (pyStrip keyword)) with
    | .error e => .error e
    | .ok result =>
      match batchDownloadLoop download characterName rest with
      | .error e => .error e
      | .ok results => .ok (result :: results)

/-- `MixamoClient.batch_download(keywords, output_dir, character_id,
character_name)` (client.py lines 733-768): run the per-keyword loop —
propagating any exception a `download` call raises — then count successes
among the collected results. -/
def batchDownload (download : String → String → Except String DownloadResult)
    (keywords : List String) (characterName : String) :
    Except String BatchDownloadResult :=
  match batchDownloadLoop download characterName keywords with
  | .error e => .error e
  | .ok results =>
    .ok { total := results.length,
          successful := results.countP (fun r => r.success),
          failed := results.length - results.countP (fun r => r.success),
          results := results }

/-!  ## Dataclass construction (models.py)

`SearchResult` in `mixamo_mcp/models.py` declares only the fields `query`,
`total` and `animations`, while both `MixamoClient.search` (client.py) and
the server tool handler pass/read an `error` member.  Constructing a
dataclass with an unknown keyword argument raises `TypeError` in Python,
which the model below reproduces.
-/

/-- Dataclass construction: fields in declaration order, each with an
optional default.  An unknown keyword argument raises `TypeError`; a
required field without an argument raises `TypeError`; otherwise the
instance maps each field to the given or default value. -/
def dataclassInit (fields : List (String × Option PyVal))
    (kwargs : List (String × PyVal)) : Except String (List (String × PyVal)) :=
  match kwargs.find? (fun kv => !(fields.any (fun f => f.1 == kv.1))) with
  | some kv =>
      .error ("TypeError: unexpected keyword argument '" ++ kv.1 ++ "'")
  | Option.none =>
    fields.mapM (fun f =>
      match List.lookup f.1 kwargs with
      | some v => Except.ok (f.1, v)
      | Option.none =>
        match f.2 with
        | some d => Except.ok (f.1, d)
        | Option.none =>
            Except.error ("TypeError: missing required argument '" ++ f.1 ++ "'"))

/-- The fields of the dataclass `SearchResult` (models.py lines 93-106):
`query`, `total` and `animations` (defaulting to an empty list).  There is
no `error` field. -/
def searchResultFields : List (String × Option PyVal) :=
  [("query", Option.none), ("total", Option.none),
   ("animations", some (.list []))]

/-- The fields of the dataclass `DownloadResult` (models.py lines 57-72). -/
def downloadResultFields : List (String × Option PyVal) :=
  [("success", Option.none), ("animation_name", Option.none),
   ("file_path", some (.str "")), ("error", some (.str ""))]

/-- The "not authenticated" message used by the early returns of
`MixamoClient.search` and `MixamoClient.download`. -/
def notAuthMsg : String :=
  "Not authenticated. Please run mixamo-auth first with your access token."

/-- The early return of `MixamoClient.search` when no access token is
present (client.py lines 396-402): it is executed before the HTTP client
is even created, and attempts to build
`SearchResult(query=query, total=0, animations=[], error=...)`. -/
def clientSearchUnauth (query : String) : Except String (List (String × PyVal)) :=
  dataclassInit searchResultFields
    [("query", .str query), ("total", .int 0), ("animations", .list []),
     ("error", .str notAuthMsg)]

/-- The early return of `MixamoClient.download` when no access token is
present (client.py lines 566-571): it is executed before any remote call
and builds `DownloadResult(success=False, animation_name=..., error=...)`. -/
def clientDownloadUnauth (name : String) :
    Except String (List (String × PyVal)) :=
  dataclassInit downloadResultFields
    [("success", .bool false), ("animation_name", .str name),
     ("error", .str notAuthMsg)]

example :
    clientSearchUnauth "run" =
    .error "TypeError: unexpected keyword argument 'error'" := rfl

/-!  ## Helper lemmas -/

theorem mem_dedupFirstAux {x : String} :
    ∀ (l seen : List String), x ∈ dedupFirstAux seen l → x ∉ seen := by
  intro l
  induction l with
  | nil => intro seen h; simp [dedupFirstAux] at h
  | cons y ys ih =>
    intro seen h
    by_cases hy : y ∈ seen
    · rw [dedupFirstAux, if_pos hy] at h
      exact ih seen h
    · rw [dedupFirstAux, if_neg hy] at h
      rcases List.mem_cons.mp h with rfl | hmem
      · exact hy
      · intro hx
        exact ih (y :: seen) hmem (List.mem_cons_of_mem y hx)

theorem nodup_dedupFirstAux :
    ∀ (l seen : List String), (dedupFirstAux seen l).Nodup := by
  intro l
  induction l with
  | nil => intro seen; simp [dedupFirstAux]
  | cons y ys ih =>
    intro seen
    by_cases hy : y ∈ seen
    · rw [dedupFirstAux, if_pos hy]; exact ih seen
    · rw [dedupFirstAux, if_neg hy]
      refine List.nodup_cons.mpr ⟨?_, ih (y :: seen)⟩
      intro hmem
      exact mem_dedupFirstAux ys (y :: seen) hmem (List.mem_cons_self y seen)

theorem expandSearchKeywords_head (q : String) :
    (expandSearchKeywords q).head? = some (pyLower (pyStrip q)) := by
  rw [expandSearchKeywords, dedupFirstAux,
    if_neg (List.not_mem_nil (pyLower (pyStrip q)))]
  rfl

theorem expandSearchKeywords_nodup (q : String) :
    (expandSearchKeywords q).Nodup := by
  rw [expandSearchKeywords]
  exact nodup_dedupFirstAux _ _

theorem canonical_keys_fixed :
    ∀ k ∈ animationKeywordMap.map Prod.fst, pyLower (pyStrip k) = k := by
  decide

theorem batchDownloadLoop_length
    (download : String → String → Except String DownloadResult)
    (characterName : String) :
    ∀ (keywords : List String) (results : List DownloadResult),
      batchDownloadLoop download characterName keywords = .ok results →
      results.length = keywords.length := by
  intro keywords
  induction keywords with
  | nil =>
    intro results h
    rw [batchDownloadLoop, Except.ok.injEq] at h
    rw [← h]
    rfl
  | cons keyword rest ih =>
    intro results h
    rw [batchDownloadLoop] at h
    split at h
    · exact absurd h (by simp)
    · split at h
      · exact absurd h (by simp)
      · rename_i r _ rs heq
        rw [Except.ok.injEq] at h
        rw [← h]
        simp [ih rs heq]

/-!  ## Claims -/

/-- Claim C1: a search or download invocation without an access token is
said to return a dedicated "not authenticated" error result before any
remote request.  The download path does exactly that, but the search path
crashes instead: `MixamoClient.search` builds
`SearchResult(..., error=...)` while the `SearchResult` dataclass of
`models.py` declares no `error` field, so Python raises `TypeError`
(the guard does run before any remote request).  Evaluated here at the
failing input `query = "run"` with no token stored. -/
theorem c1_unauthenticated_paths :
    clientSearchUnauth "run" =
      .error "TypeError: unexpected keyword argument 'error'" ∧
    clientDownloadUnauth "run" =
      .ok [("success", .bool false), ("animation_name", .str "run"),
           ("file_path", .str ""), ("error", .str notAuthMsg)] :=
  ⟨rfl, rfl⟩

/-- Claim C2: the retrieval step of `MixamoService.download_animation` runs
(the download URL is requested) exactly when the job's status is
`"completed"` and its download reference is a non-empty string; in every
other case the guard refuses with a `DownloadError` and no retrieval
request is made. -/
theorem c2_retrieval_gate :
    ∀ job : DownloadJob,
      ((job.status = "completed" ∧
          ∃ s, job.downloadUrl = some s ∧ s ≠ "") →
        serviceDownloadAnimation job = .ok (job.downloadUrl.getD "")) ∧
      ((job.status ≠ "completed" ∨ job.downloadUrl = Option.none ∨
          job.downloadUrl = some "") →
        ∃ e, serviceDownloadAnimation job = .error e) := by
  intro job
  constructor
  · rintro ⟨h1, s, h2, h3⟩
    simp [serviceDownloadAnimation, h1, h2, optStrTruthy, h3]
  · intro h
    rcases h with h1 | h2 | h2
    · exact ⟨_, by rw [serviceDownloadAnimation, if_pos (by simp [h1])]⟩
    · exact ⟨_, by rw [serviceDownloadAnimation,
        if_pos (by simp [h2, optStrTruthy])]⟩
    · exact ⟨_, by rw [serviceDownloadAnimation,
        if_pos (by simp [h2, optStrTruthy])]⟩

/-- Claim C2 witness: the gate at two concrete jobs — a completed job with
a non-empty URL is retrieved, a still-processing job is refused. -/
theorem c2_retrieval_gate_witness :
    serviceDownloadAnimation
        ⟨"char", "Jump", "completed", some "https://cdn/x.fbx", Option.none⟩ =
      .ok "https://cdn/x.fbx" ∧
    ∃ e, serviceDownloadAnimation
        ⟨"char", "Jump", "processing", Option.none, Option.none⟩ =
      .error e :=
  ⟨(c2_retrieval_gate _).1 ⟨rfl, "https://cdn/x.fbx", rfl, by decide⟩,
   (c2_retrieval_gate _).2 (Or.inl (by decide))⟩

/-- Metadata whose `gms_hash` carries `overdrive = 5`. -/
def mdOverdriveFive : PyVal :=
  .dict [("details", .dict [("gms_hash", .dict [("overdrive", .int 5)])])]

/-- Claim C3 counterexample: the client payload builder
`MixamoClient._build_gms_hash` copies the source `gms_hash` verbatim
(only `params` is rewritten), so a source `overdrive` of 5 survives into
the built export parameters — the overdrive field is not 0 for every
metadata input. -/
theorem c3_counterexample :
    clientBuildGmsHash mdOverdriveFive =
      .ok [.dict [("overdrive", .int 5), ("params", .str "0")]] ∧
    pvalGet (.dict [("overdrive", .int 5), ("params", .str "0")])
        "overdrive" = some (.int 5) ∧
    PyVal.int 5 ≠ PyVal.int 0 := by
  refine ⟨rfl, rfl, ?_⟩
  simp

/-- Claim C3 (amended): the service payload builder
`MixamoService._build_export_payload` forces `overdrive` to 0 in every
successfully built parameter structure, regardless of the source metadata;
the client builder `_build_gms_hash` instead copies the source value
(forcing 0 only in its no-`gms_hash` fallback). -/
theorem c3_service_overdrive_zero :
    ∀ (gmsHash : List (String × PyVal)) (p : PyVal),
      serviceProcessGms gmsHash = .ok p →
      pvalGet p "overdrive" = some (.int 0) := by
  intro gh p h
  rw [serviceProcessGms] at h
  split at h
  · exact absurd h (by simp)
  · split at h
    · exact absurd h (by simp)
    · rw [Except.ok.injEq] at h
      subst h
      rfl

/-- Claim C3 witness: the amended theorem applied to the empty `gms_hash`. -/
theorem c3_service_overdrive_zero_witness :
    pvalGet (.dict [("model-id", .int 0), ("mirror", .bool false),
        ("trim", .list [.int 0, .int 100]), ("overdrive", .int 0),
        ("params", .str "0"), ("arm-space", .int 0),
        ("inplace", .bool false)]) "overdrive" = some (.int 0) :=
  c3_service_overdrive_zero [] _ rfl

/-- Metadata whose `gms_hash` carries `trim = [5, "40"]`. -/
def mdTrimMixed : PyVal :=
  .dict [("details", .dict [("gms_hash",
    .dict [("trim", .list [.int 5, .str "40"])])])]

/-- Claim C4 counterexample: the client payload builder
`MixamoClient._build_gms_hash` copies `trim` verbatim, so for source
`trim = [5, "40"]` the built trim is still `[5, "40"]` — not the integer
pair `[5, 40]` the claim requires of every metadata input. -/
theorem c4_counterexample :
    clientBuildGmsHash mdTrimMixed =
      .ok [.dict [("trim", .list [.int 5, .str "40"]),
                  ("params", .str "0")]] ∧
    pvalGet (.dict [("trim", .list [.int 5, .str "40"]),
        ("params", .str "0")]) "trim" = some (.list [.int 5, .str "40"]) ∧
    PyVal.list [.int 5, .str "40"] ≠ PyVal.list [.int 5, .int 40] := by
  refine ⟨rfl, rfl, ?_⟩
  simp

/-- Claim C4 (amended): in the service payload builder
`MixamoService._build_export_payload`, an absent `trim` yields the default
`[0, 100]` and `trim = [5, "40"]` is coerced to the integer pair
`[5, 40]`; the client builder `_build_gms_hash` leaves `trim` untouched. -/
theorem c4_service_trim :
    (∀ gmsHash : List (String × PyVal),
        List.lookup "trim" gmsHash = Option.none →
        serviceTrim gmsHash = .ok (.list [.int 0, .int 100])) ∧
    serviceTrim [("trim", .list [.int 5, .str "40"])] =
      .ok (.list [.int 5, .int 40]) := by
  constructor
  · intro gh h
    unfold serviceTrim
    rw [h]
    rfl
  · rfl

/-- Claim C4 witness: the amended theorem's universal part applied to a
`gms_hash` that has no `trim` entry. -/
theorem c4_service_trim_witness :
    serviceTrim [("mirror", .bool false)] =
      .ok (.list [.int 0, .int 100]) :=
  c4_service_trim.1 [("mirror", .bool false)] rfl

/-- A monitor endpoint that always reports `processing`. -/
def respProcessing : Nat → Except String PyVal :=
  fun _ => .ok (.dict [("status", .str "processing")])

/-- A monitor endpoint whose first response reports a server-side failure
whose message happens to read "Export timed out". -/
def respFailedTimeoutMsg : Nat → Except String PyVal :=
  fun _ => .ok (.dict [("status", .str "failed"),
                       ("message", .str "Export timed out")])

/-- The job as `export_animation` hands it to the monitor loop. -/
def jobStart : DownloadJob :=
  { characterId := "char", animationName := "Jump", status := "processing" }

/-- Claim C5 counterexample: exhausting the 60-attempt ceiling of
`MixamoService._monitor_export` does not produce an outcome distinct from
a server-reported failure — the job ends in status `"failed"` (there is no
`timed_out` status), and the resulting job is literally identical to the
one produced when the server reports `failed` with the message
"Export timed out". -/
theorem c5_counterexample :
    monitorExport respProcessing 60 0 jobStart =
      monitorExport respFailedTimeoutMsg 60 0 jobStart ∧
    monitorExport respProcessing 60 0 jobStart =
      .ok { jobStart with status := "failed",
                          errorMessage := some "Export timed out" } :=
  ⟨rfl, rfl⟩

/-- Claim C5 (amended): when every poll response is non-terminal (a
successful request whose status is neither `completed` nor `failed`),
exhausting the attempt ceiling of `MixamoService._monitor_export` sets the
job's status to `"failed"` with the fixed message "Export timed out" — a
timeout is distinguished from a server-reported failure only by that
message text, not by a distinct status value. -/
theorem c5_timeout_outcome :
    ∀ (resp : Nat → Except String PyVal) (fuel i : Nat) (job : DownloadJob),
      (∀ n, monitorNonTerminal (resp n) = true) →
      monitorExport resp fuel i job =
        .ok { job with status := "failed",
                       errorMessage := some "Export timed out" } := by
  intro resp fuel
  induction fuel with
  | zero => intro i job h; rfl
  | succ fuel ih =>
    intro i job h
    have hn := h i
    rw [monitorExport]
    cases hri : resp i with
    | error e => rw [hri] at hn; simp [monitorNonTerminal] at hn
    | ok data =>
      cases data with
      | dict entries =>
        rw [hri] at hn
        simp only [monitorNonTerminal, Bool.and_eq_true, Bool.not_eq_true'] at hn
        obtain ⟨hc, hf⟩ := hn
        simp only [pvGetD, hc, hf, Bool.false_eq_true, if_false]
        exact ih (i + 1) job h
      | none => rw [hri] at hn; simp [monitorNonTerminal] at hn
      | bool b => rw [hri] at hn; simp [monitorNonTerminal] at hn
      | int n => rw [hri] at hn; simp [monitorNonTerminal] at hn
      | str s => rw [hri] at hn; simp [monitorNonTerminal] at hn
      | list l => rw [hri] at hn; simp [monitorNonTerminal] at hn

/-- Claim C5 witness: the amended theorem applied to the all-`processing`
monitor with a 30-attempt ceiling. -/
theorem c5_timeout_outcome_witness :
    monitorExport respProcessing 30 0 jobStart =
      .ok { jobStart with status := "failed",
                          errorMessage := some "Export timed out" } :=
  c5_timeout_outcome respProcessing 30 0 jobStart (fun _ => rfl)

/-- Claim C6 counterexample: for the supported canonical keyword
`"walk"`, the expansion `get_search_queries` of `mixamo_mcp/keywords.py`
returns the mapping list `["walking", "walk", "strut walk", "sneaking"]`,
whose first element is `"walking"`, not the original keyword. -/
theorem c6_counterexample :
    (getSearchQueries "walk").head? = some "walking" ∧
    "walking" ≠ "walk" :=
  ⟨rfl, by decide⟩

/-- Claim C6 (amended): for every supported canonical keyword, the
service-level expansion `expand_search_keywords` puts the original keyword
first and contains no duplicate entries; the client-side
`get_search_queries` instead returns the static mapping list, whose first
element need not be the keyword itself. -/
theorem c6_expand_head_nodup :
    ∀ k ∈ animationKeywordMap.map Prod.fst,
      (expandSearchKeywords k).head? = some k ∧
      (expandSearchKeywords k).Nodup := by
  intro k hk
  refine ⟨?_, expandSearchKeywords_nodup k⟩
  rw [expandSearchKeywords_head k, canonical_keys_fixed k hk]

/-- Claim C6 witness: the amended theorem at the canonical keyword
`"run"`. -/
theorem c6_expand_head_nodup_witness :
    (expandSearchKeywords "run").head? = some "run" ∧
    (expandSearchKeywords "run").Nodup :=
  c6_expand_head_nodup "run" (by decide)

/-- Claim C7 counterexample: the retrieval path of
`MixamoService.download_animation` neither replaces spaces nor checks for
an existing extension, so the animation name "Run Fast!.fbx" is persisted
as "Run Fast_.fbx.fbx", not "Run_Fast_.fbx". -/
theorem c7_counterexample :
    serviceFileName "Run Fast!.fbx" = "Run Fast_.fbx.fbx" ∧
    "Run Fast_.fbx.fbx" ≠ "Run_Fast_.fbx" :=
  ⟨rfl, by decide⟩

/-- Claim C7 (amended): in the client download path
(`MixamoClient.download`), the requested filename "Run Fast!.fbx" is
persisted as exactly "Run_Fast_.fbx" — characters outside
{alphanumeric, '.', '_', '-', space} become '_', then spaces become '_',
and ".fbx" is appended only when not already present (as shown by
"Run Fast!" gaining the extension); the service path
(`MixamoService.download_animation`) keeps spaces and always appends
".fbx". -/
theorem c7_filenames :
    clientSafeName (some "Run Fast!.fbx") "Big Jump" = "Run_Fast_.fbx" ∧
    clientSafeName (some "Run Fast!") "Big Jump" = "Run_Fast_.fbx" ∧
    serviceFileName "Run Fast!.fbx" = "Run Fast_.fbx.fbx" :=
  ⟨rfl, rfl, rfl⟩

/-- The return of `MixamoClient.search` when no search term got a
successful response and no results accumulated (client.py lines 469-476):
`SearchResult(query=query, total=0, animations=[], error=last_error or
"All search queries failed. Check your network connection.")`.  Like the
unauthenticated return it passes the `error` keyword the `SearchResult`
dataclass does not declare.  `MixamoClient.download` calls `search` at
line 591, before its `try` block at line 602, so the raised `TypeError`
escapes `download` into `batch_download`, whose loop has no handler. -/
def clientSearchAllFailed (query : String) (lastError : Option String) :
    Except String (List (String × PyVal)) :=
  dataclassInit searchResultFields
    [("query", .str query), ("total", .int 0), ("animations", .list []),
     ("error", .str (match lastError with
        | some e =>
            if e == "" then
              "All search queries failed. Check your network connection."
            else e
        | Option.none =>
            "All search queries failed. Check your network connection."))]

/-- A per-keyword download outcome in which the export of `"walk"` (the
second item) fails — inside `download`'s `try` block, so a
`DownloadResult(success=False, ...)` is returned — and every other item
succeeds. -/
def sampleBatchDl : String → String → Except String DownloadResult :=
  fun keyword fileName =>
    if keyword == "walk" then
      .ok { success := false, animationName := keyword,
            error := "Export job failed on Mixamo server" }
    else
      .ok { success := true, animationName := keyword,
            filePath := fileName ++ ".fbx" }

/-- A per-keyword download outcome in which item 2's (`"walk"`'s) search
exhausts every expanded term without a successful response, reaching the
`SearchResult(..., error=...)` construction of client.py lines 470-476 —
the `TypeError` it raises escapes `download` (the construction runs
before the `try` block).  Had the construction returned a result instead,
`download` would have gone on to report "Animation not found". -/
def sampleBatchDlCrash : String → String → Except String DownloadResult :=
  fun keyword fileName =>
    if keyword == "walk" then
      match clientSearchAllFailed keyword Option.none with
      | .error e => .error e
      | .ok _ =>
          .ok { success := false, animationName := keyword,
                error := "Animation not found: " ++ keyword }
    else
      .ok { success := true, animationName := keyword,
            filePath := fileName ++ ".fbx" }

/-- The per-item results of the `sampleBatchDl` scenario, in input order. -/
def sampleBatchResults : List DownloadResult :=
  [{ success := true, animationName := "idle",
     filePath := "Player_idle.fbx" },
   { success := false, animationName := "walk",
     error := "Export job failed on Mixamo server" },
   { success := true, animationName := "run",
     filePath := "Player_run.fbx" }]

/-- Claim C8: `MixamoClient.batch_download` is said to always complete
without aborting on per-item failures.  It does not: when an item's search
exhausts all expanded terms without a successful response, `search`'s
`SearchResult(..., error=...)` construction (client.py lines 470-476)
raises `TypeError` (the `SearchResult` dataclass of models.py has no
`error` field); the exception escapes `download` — `search` is called
before the `try` block — and aborts the batch loop, which has no handler
(conjuncts 2 and 3).  The claim's arithmetic is what the code produces
whenever no per-item call raises: the summary then has `total` equal to
the number of keywords and to `successful + failed`, with the collected
per-item results in input order (conjunct 1); in particular the 3-keyword
batch whose second item's export fails *inside* the `try` block reports
total 3, successful 2, failed 1 with all three items listed (conjunct 4). -/
theorem c8_batch_abort :
    (∀ (download : String → String → Except String DownloadResult)
        (keywords : List String) (characterName : String)
        (results : List DownloadResult),
      batchDownloadLoop download characterName keywords = .ok results →
      batchDownload download keywords characterName =
        .ok { total := keywords.length,
              successful := results.countP (fun r => r.success),
              failed := keywords.length -
                results.countP (fun r => r.success),
              results := results }) ∧
    batchDownload sampleBatchDlCrash ["idle", "walk", "run"] "Player" =
      .error "TypeError: unexpected keyword argument 'error'" ∧
    clientSearchAllFailed "walk" Option.none =
      .error "TypeError: unexpected keyword argument 'error'" ∧
    batchDownload sampleBatchDl ["idle", "walk", "run"] "Player" =
      .ok { total := 3, successful := 2, failed := 1,
            results := sampleBatchResults } := by
  refine ⟨?_, rfl, rfl, rfl⟩
  intro download keywords characterName results h
  have hlen := batchDownloadLoop_length download characterName keywords results h
  rw [batchDownload, h]
  dsimp only
  rw [hlen]

/-- The single collected result of a one-keyword `sampleBatchDl` run. -/
def sampleIdleResult : DownloadResult :=
  { success := true, animationName := "idle", filePath := "Player_idle.fbx" }

/-- Claim C8 witness: the no-raise conjunct of the theorem applied to the
concrete single-keyword loop run. -/
theorem c8_batch_abort_witness :
    batchDownload sampleBatchDl ["idle"] "Player" =
      .ok { total := ["idle"].length,
            successful := List.countP (fun r => r.success) [sampleIdleResult],
            failed := ["idle"].length -
              List.countP (fun r => r.success) [sampleIdleResult],
            results := [sampleIdleResult] } :=
  c8_batch_abort.1 sampleBatchDl ["idle"] "Player" [sampleIdleResult] rfl

/-- Claim C9: the params conversion of both payload builders yields the
exact string "1,2" for `params = [["a", 1], ["b", 2]]` (value at index 1
of each pair, stringified, comma-joined) and the literal string "0" for
`params = []`. -/
theorem c9_params_string :
    serviceParamsString [("params",
        .list [.list [.str "a", .int 1], .list [.str "b", .int 2]])] =
      .ok "1,2" ∧
    serviceParamsString [("params", .list [])] = .ok "0" ∧
    clientBuildGmsHash (.dict [("details", .dict [("gms_hash",
        .dict [("params", .list [.list [.str "a", .int 1],
                                 .list [.str "b", .int 2]])])])]) =
      .ok [.dict [("params", .str "1,2")]] ∧
    clientBuildGmsHash (.dict [("details", .dict [("gms_hash",
        .dict [("params", .list [])])])]) =
      .ok [.dict [("params", .str "0")]] :=
  ⟨rfl, rfl, rfl, rfl⟩

/-- Claim C10 counterexample: the service payload builder
`MixamoService._build_export_payload` performs `animation_details.get(...)`
without a `None` guard, so a null metadata object raises `AttributeError`
instead of degrading to the default parameter structure. -/
theorem c10_counterexample :
    serviceBuildExportPayload {} "char" .none "Jump" =
      .error "AttributeError: object has no attribute get" :=
  rfl

/-- Claim C10 (amended): the client payload builder
`MixamoClient._build_gms_hash` tolerates a missing or null metadata object
— `None` is replaced by an empty structure and the default parameter
structure is returned rather than an error; the service builder
`_build_export_payload` lacks the `None` guard and raises. -/
theorem c10_client_tolerates_none :
    clientBuildGmsHash .none = .ok [defaultGmsHash] ∧
    clientBuildGmsHash (.dict []) = .ok [defaultGmsHash] :=
  ⟨rfl, rfl⟩
